import Mathlib

/-!
Verification of the retention & status lifecycle engine of the
right-to-work checker: the status classifier (`js/services/status-service.js`),
the retention calculator (record-detail employment-end-date handlers),
the client-side GDPR sweep (`js/services/retention-service.js`), the
scheduled SQL sweep `auto_delete_expired_records`, the audit scrubber
`scrub_audit_personal_data`, and the notification generator
`generate_rtw_notifications` (all three SQL functions from the setup script).

Dates are modelled at day granularity (the code normalises time-of-day away
before every comparison).  JSONB snapshots in the audit log are modelled by
their key sets, which is what the scrubber and the retention claims inspect.
-/

namespace RTW

/-- A calendar date at day granularity (year ≥ 1, month 1..12, day 1..31). -/
structure Date where
  year : Nat
  month : Nat
  day : Nat
deriving DecidableEq, Repr

/-- Gregorian leap-year rule, as used by the JavaScript `Date` object. -/
def isLeapYear (y : Nat) : Bool :=
  (y % 4 == 0 && y % 100 != 0) || (y % 400 == 0)

/-- Number of days in a given month of a given year. -/
def daysInMonth (y : Nat) (m : Nat) : Nat :=
  if m = 2 then (if isLeapYear y then 29 else 28)
  else if m = 4 ∨ m = 6 ∨ m = 9 ∨ m = 11 then 30
  else 31

/-- Days in year `y` before the first day of month `m`. -/
def daysBeforeMonth (y : Nat) (m : Nat) : Nat :=
  (List.range (m - 1)).foldl (fun acc i => acc + daysInMonth y (i + 1)) 0

/-- Leap years strictly before year `y` (counting from year 1). -/
def leapDaysBefore (y : Nat) : Nat :=
  (y - 1) / 4 - (y - 1) / 100 + (y - 1) / 400

/-- Day ordinal of a date: day-granularity timeline used for all comparisons
(`<`, `<=` on JS `Date`s and SQL `DATE`s) and for day offsets (`setDate`,
`+ INTERVAL '28 days'`). -/
def toN (d : Date) : Nat :=
  365 * (d.year - 1) + leapDaysBefore d.year + daysBeforeMonth d.year d.month + d.day

/-- `warningDate` of `status-service.js` / `warning_date` of the SQL generator:
`today + 28 days`, as a day ordinal. -/
def warningN (today : Date) : Nat :=
  toN today + 28

/-- The status values returned by `calculateStatus` (the keys of
`STATUS_LABELS` in `status-service.js`). -/
inductive Status where
  | valid
  | follow_up_due
  | expired
  | follow_up_overdue
  | pending_deletion
  | pending_onboarding
deriving DecidableEq, Repr

/-- A row of `rtw_records`.  Personal-data columns that only matter through
their presence in JSONB audit snapshots are kept as `Option String`. -/
structure Record where
  id : Nat
  person_name : String
  date_of_birth : Option String
  check_date : Option Date
  expiry_date : Option Date
  follow_up_date : Option Date
  employment_end_date : Option Date
  deletion_due_date : Option Date
  onboarding_id : Option Nat
  share_code : Option String
  verification_answers : Option String
  additional_notes : Option String
  document_scan_path : Option String
  document_scan_filename : Option String
deriving DecidableEq, Repr

/-- `date <= today` on an optional date, `false` when absent. -/
def onOrBeforeB (today : Date) (o : Option Date) : Bool :=
  match o with
  | some d => toN d ≤ toN today
  | none => false

/-- `date < today` on an optional date, `false` when absent. -/
def beforeB (today : Date) (o : Option Date) : Bool :=
  match o with
  | some d => toN d < toN today
  | none => false

/-- Final `expiry_date` check of `calculateStatus` (expiry approaching within
28 days), reached when the follow-up checks did not fire. -/
def expiryWithinWarning (r : Record) (today : Date) : Status :=
  match r.expiry_date with
  | some e => if toN e ≤ warningN today then Status.follow_up_due else Status.valid
  | none => Status.valid

/-- `calculateStatus` of `js/services/status-service.js`, with `today` passed
explicitly (the source reads the clock and normalises it to midnight). -/
def calculateStatus (r : Record) (today : Date) : Status :=
  if r.onboarding_id.isSome && r.check_date.isNone then
    Status.pending_onboarding
  else if onOrBeforeB today r.deletion_due_date then
    Status.pending_deletion
  else if beforeB today r.expiry_date then
    Status.expired
  else
    match r.follow_up_date with
    | some fu =>
        if toN fu < toN today then Status.follow_up_overdue
        else if toN fu ≤ warningN today then Status.follow_up_due
        else expiryWithinWarning r today
    | none => expiryWithinWarning r today

/-- JavaScript `Date.prototype.setFullYear`: the month and day-of-month are
kept and an out-of-range day (29 Feb in a non-leap year) rolls over into the
next month. -/
def jsSetFullYear (d : Date) (y : Nat) : Date :=
  if d.day ≤ daysInMonth y d.month then ⟨y, d.month, d.day⟩
  else ⟨y, d.month + 1, d.day - daysInMonth y d.month⟩

/-- The retention calculator of the record-detail save handler:
`d.setFullYear(d.getFullYear() + 2)`. -/
def addTwoYears (d : Date) : Date :=
  jsSetFullYear d (d.year + 2)

/-- The pair of fields written by one `updateRecord` call of the
employment-end-date handlers. -/
structure EndDateUpdate where
  employment_end_date : Option Date
  deletion_due_date : Option Date
deriving DecidableEq, Repr

/-- The update built by the `saveEndDateBtn` click handler: the entered end
date together with the derived deletion-due date (or both `null`). -/
def saveEndDateUpdate (value : Option Date) : EndDateUpdate :=
  { employment_end_date := value
    deletion_due_date := value.map addTwoYears }

/-- The update built by the `clearEndDateBtn` click handler: both fields
`null`. -/
def clearEndDateUpdate : EndDateUpdate :=
  { employment_end_date := none, deletion_due_date := none }

/-- Applying one of the handlers' updates to a record row. -/
def applyEndDateUpdate (r : Record) (u : EndDateUpdate) : Record :=
  { r with employment_end_date := u.employment_end_date
           deletion_due_date := u.deletion_due_date }

/-- A row of the `deleted_records` GDPR ledger. -/
structure DeletedRecordEntry where
  original_record_id : Nat
  person_name : String
  employment_start_date : Option Date
  employment_end_date : Option Date
  deletion_due_date : Option Date
  deleted_by : Option Nat
  deleted_by_email : String
  reason : String
deriving DecidableEq, Repr

/-- A binary scan object in the `document-scans` bucket; object names are
`recordId/filename`, so the owning record id is the path's first segment. -/
structure ScanObject where
  record_id : Nat
  filename : String
deriving DecidableEq, Repr

/-- A row of `audit_log`.  The `old_values`/`new_values` JSONB snapshots are
modelled by their key sets; `to_jsonb` emits a key for every column, so null
columns still contribute their key. -/
structure AuditEntry where
  record_id : Nat
  old_values : List String
  new_values : List String
deriving DecidableEq, Repr

/-- A row of `notifications`.  `dismissed` models `dismissed_at IS NOT NULL`. -/
structure Notif where
  source_app : String
  severity : String
  title : String
  message : String
  action_url : Option String
  record_id : Option Nat
  dismissed : Bool
deriving DecidableEq, Repr

/-- The backing store the retention core reads and writes. -/
structure Store where
  rtw_records : List Record
  deleted_records : List DeletedRecordEntry
  scans : List ScanObject
  audit_log : List AuditEntry
  notifications : List Notif
deriving DecidableEq, Repr

/-- Key set of `to_jsonb` over an `rtw_records` row (the columns this
development models; every column key is present even when its value is null). -/
def recordJsonKeys : List String :=
  ["id", "person_name", "date_of_birth", "check_date", "expiry_date",
   "follow_up_date", "employment_end_date", "deletion_due_date",
   "onboarding_id", "share_code", "verification_answers", "additional_notes",
   "document_scan_path", "document_scan_filename"]

/-- The `audit_log` row inserted by the `rtw_records_audit` trigger when a
record row is deleted: `old_values = to_jsonb(OLD)`, no `new_values`. -/
def deleteAuditEntry (r : Record) : AuditEntry :=
  { record_id := r.id, old_values := recordJsonKeys, new_values := [] }

/-- `sensitive_keys` of `scrub_audit_personal_data`. -/
def sensitiveKeys : List String :=
  ["person_name", "date_of_birth", "share_code", "verification_answers",
   "additional_notes", "document_scan_path", "document_scan_filename"]

/-- One `UPDATE` of the scrubber's `FOREACH` loop, applied to a single
`audit_log` row: remove key `k` from both snapshots of rows for
`target_record_id` that still carry `k` somewhere. -/
def scrubKeyEntry (target : Nat) (k : String) (e : AuditEntry) : AuditEntry :=
  if e.record_id = target ∧ (k ∈ e.old_values ∨ k ∈ e.new_values) then
    { e with old_values := e.old_values.filter (fun x => x ≠ k)
             new_values := e.new_values.filter (fun x => x ≠ k) }
  else e

/-- `public.scrub_audit_personal_data(target_record_id)` applied to the
`audit_log` table. -/
def scrub_audit_personal_data (target : Nat) (lg : List AuditEntry) : List AuditEntry :=
  sensitiveKeys.foldl (fun acc k => acc.map (scrubKeyEntry target k)) lg

/-- `deletion_due_date IS NOT NULL AND deletion_due_date <= today`: the
candidate condition shared by `fetchRecordsPendingDeletion` and the two
scheduled SQL jobs. -/
def isDue (today : Date) (r : Record) : Bool :=
  onOrBeforeB today r.deletion_due_date

/-- The sweep's candidate query.  (The client query also orders by
`deletion_due_date`; the claims here do not depend on that presentation
order, so store order is kept.) -/
def pendingDeletionCandidates (s : Store) (today : Date) : List Record :=
  s.rtw_records.filter (isDue today)

/-- The ledger row inserted by `public.auto_delete_expired_records` for a
candidate `rec`. -/
def sqlLedgerEntry (r : Record) : DeletedRecordEntry :=
  { original_record_id := r.id
    person_name := r.person_name
    employment_start_date := r.check_date
    employment_end_date := r.employment_end_date
    deletion_due_date := r.deletion_due_date
    deleted_by := none
    deleted_by_email := "system@auto-delete"
    reason := "GDPR retention period expired (auto)" }

/-- The primitive store operations the scheduled SQL sweep issues, in order. -/
inductive SweepEv where
  | insertLedger (entry : DeletedRecordEntry)
  | deleteScans (rid : Nat)
  | deleteRecordRow (rid : Nat)
  | scrubAudit (rid : Nat)
deriving DecidableEq, Repr

/-- Store semantics of each primitive operation.  Deleting a record row fires
the `rtw_records_audit` trigger, which appends an `audit_log` row holding
`to_jsonb(OLD)` for every deleted row. -/
def applyEv (s : Store) (ev : SweepEv) : Store :=
  match ev with
  | SweepEv.insertLedger entry =>
      { s with deleted_records := s.deleted_records ++ [entry] }
  | SweepEv.deleteScans rid =>
      { s with scans := s.scans.filter (fun o => o.record_id ≠ rid) }
  | SweepEv.deleteRecordRow rid =>
      { s with rtw_records := s.rtw_records.filter (fun x => x.id ≠ rid)
               audit_log := s.audit_log ++
                 (s.rtw_records.filter (fun x => x.id = rid)).map deleteAuditEntry }
  | SweepEv.scrubAudit rid =>
      { s with audit_log := scrub_audit_personal_data rid s.audit_log }

/-- The per-candidate body of `public.auto_delete_expired_records`: ledger
insert, then storage-object deletion, then the record delete, then the audit
scrub. -/
def sqlDeleteTrace (r : Record) : List SweepEv :=
  [SweepEv.insertLedger (sqlLedgerEntry r), SweepEv.deleteScans r.id,
   SweepEv.deleteRecordRow r.id, SweepEv.scrubAudit r.id]

/-- Execute one candidate's loop body against the store. -/
def applyBlock (st : Store) (r : Record) : Store :=
  (sqlDeleteTrace r).foldl applyEv st

/-- The full ordered operation trace of one invocation of
`public.auto_delete_expired_records` (candidates are selected once, at loop
start). -/
def sqlSweepTrace (s : Store) (today : Date) : List SweepEv :=
  (pendingDeletionCandidates s today).foldl (fun acc r => acc ++ sqlDeleteTrace r) []

/-- `public.auto_delete_expired_records()`, with `CURRENT_DATE` passed
explicitly. -/
def runSqlSweep (s : Store) (today : Date) : Store :=
  (pendingDeletionCandidates s today).foldl applyBlock s

/-- Failure injection for the client sweep's fallible collaborator calls:
`some msg` means the corresponding call throws an error whose `.message` is
`msg`. -/
structure FailureModel where
  fetchFails : Option String
  identityFails : Option String
  logFails : Nat → Option String
  scansFail : Nat → Option String
  deleteFails : Nat → Option String

/-- The failure model in which every collaborator call succeeds. -/
def noFailures : FailureModel :=
  { fetchFails := none
    identityFails := none
    logFails := fun _ => none
    scansFail := fun _ => none
    deleteFails := fun _ => none }

/-- The ledger row built by `logRecordDeletion` in
`js/services/retention-service.js`. -/
def clientLedgerEntry (r : Record) (userId : Nat) (userEmail : String) : DeletedRecordEntry :=
  { original_record_id := r.id
    person_name := r.person_name
    employment_start_date := r.check_date
    employment_end_date := r.employment_end_date
    deletion_due_date := r.deletion_due_date
    deleted_by := some userId
    deleted_by_email := userEmail
    reason := if r.deletion_due_date.isSome then "GDPR retention period expired"
              else "Manual deletion by manager" }

/-- The `{ deleted, errors }` report returned by `autoDeleteExpiredRecords`. -/
structure SweepResult where
  deleted : List String
  errors : List String
deriving DecidableEq, Repr

/-- One iteration of the client sweep's `for (const record of records)` loop:
log the deletion, delete the scans, delete the record; on the first failing
sub-step push `"{name}: {message}"` to `errors` and keep already-completed
steps (no rollback); on success push the name to `deleted`. -/
def clientProcessOne (fm : FailureModel) (userId : Nat) (userEmail : String)
    (acc : Store × SweepResult) (r : Record) : Store × SweepResult :=
  let s := acc.1
  let res := acc.2
  match fm.logFails r.id with
  | some msg => (s, { res with errors := res.errors ++ [r.person_name ++ ": " ++ msg] })
  | none =>
    let s1 := { s with deleted_records :=
                  s.deleted_records ++ [clientLedgerEntry r userId userEmail] }
    match fm.scansFail r.id with
    | some msg => (s1, { res with errors := res.errors ++ [r.person_name ++ ": " ++ msg] })
    | none =>
      let s2 := { s1 with scans := s1.scans.filter (fun o => o.record_id ≠ r.id) }
      match fm.deleteFails r.id with
      | some msg => (s2, { res with errors := res.errors ++ [r.person_name ++ ": " ++ msg] })
      | none =>
        let s3 := { s2 with
          rtw_records := s2.rtw_records.filter (fun x => x.id ≠ r.id)
          audit_log := s2.audit_log ++
            (s2.rtw_records.filter (fun x => x.id = r.id)).map deleteAuditEntry }
        (s3, { res with deleted := res.deleted ++ [r.person_name] })

/-- `autoDeleteExpiredRecords` of `js/services/retention-service.js`: fetch
the due candidates (early empty return), resolve the acting user (sweep-fatal
on failure), then process each candidate in isolation. -/
def autoDeleteExpiredRecords (fm : FailureModel) (userId : Nat) (userEmail : String)
    (s : Store) (today : Date) : Store × SweepResult :=
  match fm.fetchFails with
  | some msg => (s, { deleted := [], errors := [msg] })
  | none =>
    let records := pendingDeletionCandidates s today
    if records.isEmpty then (s, { deleted := [], errors := [] })
    else
      match fm.identityFails with
      | some msg => (s, { deleted := [], errors := ["Could not identify current user: " ++ msg] })
      | none => records.foldl (clientProcessOne fm userId userEmail) (s, ⟨[], []⟩)

/-- SQL `title LIKE 'pfx%'`. -/
def likeMatch (pfx s : String) : Bool :=
  List.isPrefixOf pfx.data s.data

/-- The generator's duplicate check for one notification row: same record,
`source_app = 'rtw-checker'`, title under the category's LIKE pattern, and
not yet dismissed. -/
def notifMatches (rid : Nat) (pfx : String) (n : Notif) : Bool :=
  (n.record_id == some rid) && (n.source_app == "rtw-checker") &&
    likeMatch pfx n.title && !n.dismissed

/-- `SELECT EXISTS (...) INTO notif_exists` of `generate_rtw_notifications`. -/
def hasUndismissed (ns : List Notif) (rid : Nat) (pfx : String) : Bool :=
  ns.any (notifMatches rid pfx)

/-- One iteration of a category loop: insert the category's notification for
`rec` unless an undismissed one already exists (check-then-insert). -/
def insertIfMissing (pfx : String) (mk : Record → Notif) (st : Store) (rec : Record) : Store :=
  if hasUndismissed st.notifications rec.id pfx then st
  else { st with notifications := st.notifications ++ [mk rec] }

/-- One `FOR rec IN SELECT ... LOOP` block of `generate_rtw_notifications`:
scan the records matching the category condition and check-then-insert. -/
def catLoop (cond : Date → Record → Bool) (pfx : String) (mk : Record → Notif)
    (today : Date) (s : Store) : Store :=
  (s.rtw_records.filter (cond today)).foldl (insertIfMissing pfx mk) s

/-- Rendering of a date inside a notification message (`||` on a SQL DATE). -/
def dateStr (d : Date) : String :=
  toString d.year ++ "-" ++ toString d.month ++ "-" ++ toString d.day

/-- Rendering of a nullable date inside a notification message. -/
def optDateStr (o : Option Date) : String :=
  match o with
  | some d => dateStr d
  | none => "null"

/-- `deletion_due_date IS NULL OR deletion_due_date > today` — the
not-pending-deletion guard of categories 2–5. -/
def notPendingB (today : Date) (r : Record) : Bool :=
  !onOrBeforeB today r.deletion_due_date

/-- `expiry_date IS NULL OR expiry_date >= today` — the not-expired guard of
categories 3 and 4. -/
def expiryNotPassedB (today : Date) (r : Record) : Bool :=
  match r.expiry_date with
  | some e => toN today ≤ toN e
  | none => true

/-- `date >= today AND date <= warning_date` on an optional date. -/
def inWindowB (today : Date) (o : Option Date) : Bool :=
  match o with
  | some d => toN today ≤ toN d && toN d ≤ warningN today
  | none => false

/-- `follow_up_date IS NULL OR follow_up_date > warning_date` — category 5's
follow-up guard. -/
def afterWindowB (today : Date) (o : Option Date) : Bool :=
  match o with
  | some d => warningN today < toN d
  | none => true

/-- Category 1 condition (pending deletion). -/
def catPendingDeletionB (today : Date) (r : Record) : Bool :=
  onOrBeforeB today r.deletion_due_date

/-- Category 2 condition (expired). -/
def catExpiredB (today : Date) (r : Record) : Bool :=
  beforeB today r.expiry_date && notPendingB today r

/-- Category 3 condition (follow-up overdue). -/
def catOverdueB (today : Date) (r : Record) : Bool :=
  beforeB today r.follow_up_date && expiryNotPassedB today r && notPendingB today r

/-- Category 4 condition (follow-up due within 28 days). -/
def catFollowUpDueB (today : Date) (r : Record) : Bool :=
  inWindowB today r.follow_up_date && expiryNotPassedB today r && notPendingB today r

/-- Category 5 condition (expiry approaching within 28 days). -/
def catExpiringSoonB (today : Date) (r : Record) : Bool :=
  inWindowB today r.expiry_date && afterWindowB today r.follow_up_date && notPendingB today r

/-- Notification built by category 1. -/
def mkPendingDeletionNotif (r : Record) : Notif :=
  { source_app := "rtw-checker"
    severity := "urgent"
    title := "Pending Deletion: " ++ r.person_name
    message := "GDPR retention period has expired for " ++ r.person_name ++
      ". Record is due for deletion (due " ++ optDateStr r.deletion_due_date ++ ")."
    action_url := some "https://rtw.immersivecore.network/#/retention"
    record_id := some r.id
    dismissed := false }

/-- Notification built by category 2. -/
def mkExpiredNotif (r : Record) : Notif :=
  { source_app := "rtw-checker"
    severity := "urgent"
    title := "Expired: " ++ r.person_name
    message := "Right to work check for " ++ r.person_name ++ " expired on " ++
      optDateStr r.expiry_date ++ ". A new check is required."
    action_url := some ("https://rtw.immersivecore.network/#/record/" ++ toString r.id)
    record_id := some r.id
    dismissed := false }

/-- Notification built by category 3. -/
def mkOverdueNotif (r : Record) : Notif :=
  { source_app := "rtw-checker"
    severity := "warning"
    title := "Overdue: " ++ r.person_name
    message := "Follow-up check for " ++ r.person_name ++ " was due on " ++
      optDateStr r.follow_up_date ++ "."
    action_url := some ("https://rtw.immersivecore.network/#/record/" ++ toString r.id)
    record_id := some r.id
    dismissed := false }

/-- Notification built by category 4. -/
def mkFollowUpDueNotif (r : Record) : Notif :=
  { source_app := "rtw-checker"
    severity := "info"
    title := "Follow-up Due: " ++ r.person_name
    message := "Follow-up check for " ++ r.person_name ++ " is due on " ++
      optDateStr r.follow_up_date ++ "."
    action_url := some ("https://rtw.immersivecore.network/#/record/" ++ toString r.id)
    record_id := some r.id
    dismissed := false }

/-- Notification built by category 5. -/
def mkExpiringSoonNotif (r : Record) : Notif :=
  { source_app := "rtw-checker"
    severity := "warning"
    title := "Expiring Soon: " ++ r.person_name
    message := "Right to work check for " ++ r.person_name ++ " expires on " ++
      optDateStr r.expiry_date ++ "."
    action_url := some ("https://rtw.immersivecore.network/#/record/" ++ toString r.id)
    record_id := some r.id
    dismissed := false }

/-- `public.generate_rtw_notifications()`, with `CURRENT_DATE` passed
explicitly: the five category loops, in source order, each over the record
table with its own check-then-insert deduplication. -/
def generate_rtw_notifications (s : Store) (today : Date) : Store :=
  let s1 := catLoop catPendingDeletionB "Pending Deletion" mkPendingDeletionNotif today s
  let s2 := catLoop catExpiredB "Expired" mkExpiredNotif today s1
  let s3 := catLoop catOverdueB "Overdue" mkOverdueNotif today s2
  let s4 := catLoop catFollowUpDueB "Follow-up Due" mkFollowUpDueNotif today s3
  catLoop catExpiringSoonB "Expiring Soon" mkExpiringSoonNotif today s4

/-- Modelled from the spec: category 5's trigger condition as §4.5 words it —
`expiry_date` in `[today, today+28d]`, no follow-up within that same window,
and not pending-deletion.  Used to compare the generator's guard against the
spec's description. -/
def specExpiringSoonB (today : Date) (r : Record) : Bool :=
  inWindowB today r.expiry_date && !(inWindowB today r.follow_up_date) && notPendingB today r

/-- A record with every optional field absent; concrete witness records are
built from it. -/
def blankRecord : Record :=
  { id := 0
    person_name := ""
    date_of_birth := none
    check_date := none
    expiry_date := none
    follow_up_date := none
    employment_end_date := none
    deletion_due_date := none
    onboarding_id := none
    share_code := none
    verification_answers := none
    additional_notes := none
    document_scan_path := none
    document_scan_filename := none }

/-- An empty backing store; concrete witness stores are built from it. -/
def emptyStore : Store :=
  { rtw_records := []
    deleted_records := []
    scans := []
    audit_log := []
    notifications := [] }

/-- Concrete scenario-C record: checked on 2024-01-10, employment ended
2023-06-10, deletion due 2025-06-10 (five days before the sample today). -/
def recC2w : Record :=
  { blankRecord with
      id := 11
      person_name := "Cara"
      check_date := some ⟨2024, 1, 10⟩
      employment_end_date := some ⟨2023, 6, 10⟩
      deletion_due_date := some ⟨2025, 6, 10⟩ }

/-- Concrete scenario-C store: the due record plus scans for it and for an
unrelated record. -/
def storeC2w : Store :=
  { emptyStore with
      rtw_records := [recC2w]
      scans := [⟨11, "passport.pdf"⟩, ⟨12, "other.pdf"⟩] }

/-- The scrubber's action on a single `audit_log` row: every sensitive key
processed in `FOREACH` order. -/
def scrubEntry (target : Nat) (e : AuditEntry) : AuditEntry :=
  sensitiveKeys.foldl (fun x k => scrubKeyEntry target k x) e

/-- Store invariant reached once the sweep has processed record id `rid`:
no audit entry for `rid` carries a sensitive key, and no record row with id
`rid` remains. -/
def auditCleanFor (rid : Nat) (s : Store) : Prop :=
  (∀ e ∈ s.audit_log, e.record_id = rid →
     ∀ k ∈ sensitiveKeys, k ∉ e.old_values ∧ k ∉ e.new_values) ∧
  (∀ x ∈ s.rtw_records, x.id ≠ rid)

/-- After a generator run, each of the five category conditions is covered by
an undismissed notification with that category's title pattern. -/
def categoriesSatisfied (s : Store) (today : Date) : Prop :=
  (∀ rec ∈ s.rtw_records, catPendingDeletionB today rec = true →
     hasUndismissed s.notifications rec.id "Pending Deletion" = true) ∧
  (∀ rec ∈ s.rtw_records, catExpiredB today rec = true →
     hasUndismissed s.notifications rec.id "Expired" = true) ∧
  (∀ rec ∈ s.rtw_records, catOverdueB today rec = true →
     hasUndismissed s.notifications rec.id "Overdue" = true) ∧
  (∀ rec ∈ s.rtw_records, catFollowUpDueB today rec = true →
     hasUndismissed s.notifications rec.id "Follow-up Due" = true) ∧
  (∀ rec ∈ s.rtw_records, catExpiringSoonB today rec = true →
     hasUndismissed s.notifications rec.id "Expiring Soon" = true)

/-- Concrete due record used to exercise the audit-scrub claims. -/
def recC3w : Record :=
  { blankRecord with
      id := 21
      person_name := "Dana"
      check_date := some ⟨2023, 4, 3⟩
      employment_end_date := some ⟨2023, 5, 1⟩
      deletion_due_date := some ⟨2025, 5, 1⟩ }

/-- Store for the scrub claims: the due record plus one historical audit
entry that still carries personal data. -/
def storeC3w : Store :=
  { emptyStore with
      rtw_records := [recC3w]
      audit_log := [{ record_id := 21
                      old_values := ["person_name", "additional_notes", "check_type"]
                      new_values := ["person_name"] }] }

/-- Failure model in which exactly the scan-deletion step of the record with
id `rid` fails with message `m`, and everything else succeeds. -/
def failSecondScans (rid : Nat) (m : String) : FailureModel :=
  { fetchFails := none
    identityFails := none
    logFails := fun _ => none
    scansFail := fun i => if i = rid then some m else none
    deleteFails := fun _ => none }

/-- Three concrete due records for the partial-failure scenario. -/
def recC6a : Record :=
  { blankRecord with id := 1, person_name := "Alice", deletion_due_date := some ⟨2025, 1, 1⟩ }

/-- Second record of the partial-failure scenario (its scan deletion fails). -/
def recC6b : Record :=
  { blankRecord with id := 2, person_name := "Belal", deletion_due_date := some ⟨2025, 2, 1⟩ }

/-- Third record of the partial-failure scenario. -/
def recC6c : Record :=
  { blankRecord with id := 3, person_name := "Chloe", deletion_due_date := some ⟨2025, 3, 1⟩ }

/-- Store holding the three due records of the partial-failure scenario. -/
def storeC6w : Store :=
  { emptyStore with rtw_records := [recC6a, recC6b, recC6c] }

/-- Every `Status` value is one of the classifier's named statuses. -/
theorem status_cases (s : Status) :
    s = Status.pending_onboarding ∨ s = Status.pending_deletion ∨ s = Status.expired ∨
      s = Status.follow_up_overdue ∨ s = Status.follow_up_due ∨ s = Status.valid := by
  cases s <;> simp

/-- Claim C1: after the save handler's single `updateRecord` call,
`deletion_due_date` is set iff `employment_end_date` is set and equals the
end date advanced by exactly two calendar years (2024-02-29 maps to
2026-03-01, 731 days later — calendar arithmetic, not 730 days); the clear
handler nulls both fields in the same single update. -/
theorem claim_C1_end_date_retention (r : Record) (v : Option Date) :
    ((applyEndDateUpdate r (saveEndDateUpdate v)).deletion_due_date.isSome
        ↔ (applyEndDateUpdate r (saveEndDateUpdate v)).employment_end_date.isSome)
    ∧ (applyEndDateUpdate r (saveEndDateUpdate v)).deletion_due_date
        = ((applyEndDateUpdate r (saveEndDateUpdate v)).employment_end_date).map addTwoYears
    ∧ (applyEndDateUpdate r clearEndDateUpdate).employment_end_date = none
    ∧ (applyEndDateUpdate r clearEndDateUpdate).deletion_due_date = none
    ∧ addTwoYears ⟨2024, 2, 29⟩ = ⟨2026, 3, 1⟩
    ∧ toN (addTwoYears ⟨2024, 2, 29⟩) = toN ⟨2024, 2, 29⟩ + 731 := by
  refine ⟨?_, rfl, rfl, rfl, by decide, by decide⟩
  cases v <;> simp [applyEndDateUpdate, saveEndDateUpdate]

/-- Claim C4: `calculateStatus` is a total, deterministic function of
`(record, today)`: it always returns one of the classifier's named statuses
(the statuses named by the seven evaluation rules), and equal inputs give
equal outputs. -/
theorem claim_C4_classifier_total (r r2 : Record) (today t2 : Date)
    (hr : r2 = r) (ht : t2 = today) :
    (calculateStatus r today = Status.pending_onboarding ∨
       calculateStatus r today = Status.pending_deletion ∨
       calculateStatus r today = Status.expired ∨
       calculateStatus r today = Status.follow_up_overdue ∨
       calculateStatus r today = Status.follow_up_due ∨
       calculateStatus r today = Status.valid) ∧
      calculateStatus r2 t2 = calculateStatus r today := by
  subst hr
  subst ht
  exact ⟨status_cases _, rfl⟩

/-- Witness for claim C4 at a concrete record and day. -/
theorem claim_C4_classifier_total_witness :
    (calculateStatus blankRecord ⟨2025, 6, 15⟩ = Status.pending_onboarding ∨
       calculateStatus blankRecord ⟨2025, 6, 15⟩ = Status.pending_deletion ∨
       calculateStatus blankRecord ⟨2025, 6, 15⟩ = Status.expired ∨
       calculateStatus blankRecord ⟨2025, 6, 15⟩ = Status.follow_up_overdue ∨
       calculateStatus blankRecord ⟨2025, 6, 15⟩ = Status.follow_up_due ∨
       calculateStatus blankRecord ⟨2025, 6, 15⟩ = Status.valid) ∧
      calculateStatus blankRecord ⟨2025, 6, 15⟩ = calculateStatus blankRecord ⟨2025, 6, 15⟩ :=
  claim_C4_classifier_total blankRecord blankRecord ⟨2025, 6, 15⟩ ⟨2025, 6, 15⟩ rfl rfl

/-- Claim C5 fails as stated: a record with an overdue follow-up
(2025-06-14 < today = 2025-06-15) and a future expiry (2025-12-31) whose
deletion-due date has also passed classifies as `pending_deletion`, not
`follow_up_overdue`. -/
theorem claim_C5_counterexample :
    toN ⟨2025, 6, 14⟩ < toN ⟨2025, 6, 15⟩ ∧ toN ⟨2025, 6, 15⟩ ≤ toN ⟨2025, 12, 31⟩ ∧
    calculateStatus { blankRecord with
        check_date := some ⟨2024, 1, 10⟩
        expiry_date := some ⟨2025, 12, 31⟩
        follow_up_date := some ⟨2025, 6, 14⟩
        employment_end_date := some ⟨2023, 6, 10⟩
        deletion_due_date := some ⟨2025, 6, 10⟩ } ⟨2025, 6, 15⟩ = Status.pending_deletion ∧
    Status.pending_deletion ≠ Status.follow_up_overdue := by
  decide

/-- Claim C5 as amended: a record with an overdue follow-up and an expiry on
or after today classifies as `follow_up_overdue` — never `follow_up_due` —
provided the two higher-precedence rules do not fire (it is not an
onboarding-linked record without a check date, and its deletion-due date, if
any, has not passed). -/
theorem claim_C5_overdue_precedence (r : Record) (today fu e : Date)
    (hfu : r.follow_up_date = some fu) (hlt : toN fu < toN today)
    (he : r.expiry_date = some e) (hge : toN today ≤ toN e)
    (hgate : (r.onboarding_id.isSome && r.check_date.isNone) = false)
    (hdd : ∀ dd, r.deletion_due_date = some dd → toN today < toN dd) :
    calculateStatus r today = Status.follow_up_overdue ∧
      calculateStatus r today ≠ Status.follow_up_due := by
  have h1 : onOrBeforeB today r.deletion_due_date = false := by
    cases hd : r.deletion_due_date with
    | none => simp [onOrBeforeB]
    | some dd =>
        have hgt := hdd dd hd
        simp only [onOrBeforeB, decide_eq_false_iff_not]
        omega
  have h2 : beforeB today r.expiry_date = false := by
    simp only [beforeB, he, decide_eq_false_iff_not]
    omega
  constructor
  · simp [calculateStatus, hgate, h1, h2, hfu, hlt]
  · simp [calculateStatus, hgate, h1, h2, hfu, hlt]

/-- Witness for the amended claim C5 at a concrete record and day. -/
theorem claim_C5_overdue_precedence_witness :
    calculateStatus { blankRecord with
        follow_up_date := some ⟨2025, 6, 14⟩
        expiry_date := some ⟨2025, 12, 31⟩ } ⟨2025, 6, 15⟩ = Status.follow_up_overdue ∧
    calculateStatus { blankRecord with
        follow_up_date := some ⟨2025, 6, 14⟩
        expiry_date := some ⟨2025, 12, 31⟩ } ⟨2025, 6, 15⟩ ≠ Status.follow_up_due :=
  claim_C5_overdue_precedence _ ⟨2025, 6, 15⟩ ⟨2025, 6, 14⟩ ⟨2025, 12, 31⟩
    rfl (by decide) rfl (by decide) (by decide) (fun dd h => by cases h)

/-- Claim C2: for a record whose deletion-due date lies five days in the
past, the classifier answers `pending_deletion`, and the scheduled sweep
deletes the record row, removes exactly its scan objects, and writes exactly
one ledger entry with reason `"GDPR retention period expired (auto)"`; the
sweep's operation trace inserts that ledger entry (position 0) before the
record-row delete (position 2). -/
theorem claim_C2_sweep_scenario (r : Record) (today dd : Date) (s : Store)
    (hdd : r.deletion_due_date = some dd) (h5 : toN today = toN dd + 5)
    (hcd : r.check_date.isSome = true)
    (hs : s.rtw_records = [r]) (hdel : s.deleted_records = []) :
    calculateStatus r today = Status.pending_deletion ∧
    (runSqlSweep s today).rtw_records = [] ∧
    (runSqlSweep s today).scans = s.scans.filter (fun o => o.record_id ≠ r.id) ∧
    (runSqlSweep s today).deleted_records = [sqlLedgerEntry r] ∧
    (sqlLedgerEntry r).reason = "GDPR retention period expired (auto)" ∧
    sqlSweepTrace s today =
      [SweepEv.insertLedger (sqlLedgerEntry r), SweepEv.deleteScans r.id,
       SweepEv.deleteRecordRow r.id, SweepEv.scrubAudit r.id] := by
  obtain ⟨cd, hcdeq⟩ := Option.isSome_iff_exists.mp hcd
  have hle : toN dd ≤ toN today := by omega
  have hdue : isDue today r = true := by
    simp [isDue, onOrBeforeB, hdd, hle]
  have hcands : pendingDeletionCandidates s today = [r] := by
    simp [pendingDeletionCandidates, hs, hdue]
  refine ⟨?_, ?_, ?_, ?_, rfl, ?_⟩
  · simp [calculateStatus, hcdeq, onOrBeforeB, hdd, hle]
  · simp [runSqlSweep, hcands, applyBlock, sqlDeleteTrace, applyEv, hs]
  · simp [runSqlSweep, hcands, applyBlock, sqlDeleteTrace, applyEv]
  · simp [runSqlSweep, hcands, applyBlock, sqlDeleteTrace, applyEv, hdel]
  · simp [sqlSweepTrace, hcands, sqlDeleteTrace]

/-- A fully successful client-sweep iteration: append the ledger entry,
remove the record's scans, delete the record row (firing the audit trigger),
and report the subject's name. -/
theorem clientProcessOne_noFail (uid : Nat) (email : String)
    (acc : Store × SweepResult) (r : Record) :
    clientProcessOne noFailures uid email acc r =
      ({ acc.1 with
           deleted_records := acc.1.deleted_records ++ [clientLedgerEntry r uid email]
           scans := acc.1.scans.filter (fun o => o.record_id ≠ r.id)
           rtw_records := acc.1.rtw_records.filter (fun x => x.id ≠ r.id)
           audit_log := acc.1.audit_log ++
             (acc.1.rtw_records.filter (fun x => x.id = r.id)).map deleteAuditEntry },
       { acc.2 with deleted := acc.2.deleted ++ [r.person_name] }) :=
  rfl

/-- After a fully successful client-sweep loop, every surviving record was in
the store before and has an id distinct from every processed candidate. -/
theorem foldl_noFail_records (uid : Nat) (email : String) :
    ∀ (l : List Record) (s : Store) (res : SweepResult) (x : Record),
      x ∈ ((l.foldl (clientProcessOne noFailures uid email) (s, res)).1).rtw_records →
      x ∈ s.rtw_records ∧ ∀ c ∈ l, x.id ≠ c.id := by
  intro l
  induction l with
  | nil =>
      intro s res x hx
      simpa using hx
  | cons c l ih =>
      intro s res x hx
      rw [List.foldl_cons, clientProcessOne_noFail] at hx
      obtain ⟨hx1, hx2⟩ := ih _ _ x hx
      rw [List.mem_filter] at hx1
      refine ⟨hx1.1, ?_⟩
      intro d hdm
      rcases List.mem_cons.mp hdm with hcase | hcase
      · subst hcase
        simpa using hx1.2
      · exact hx2 d hcase

/-- Claim C7: a fully successful sweep leaves no record matching the
candidate query, so running it again immediately deletes nothing and returns
the empty report. -/
theorem claim_C7_sweep_idempotent (uid : Nat) (email : String) (s : Store) (today : Date) :
    autoDeleteExpiredRecords noFailures uid email
        ((autoDeleteExpiredRecords noFailures uid email s today).1) today =
      ((autoDeleteExpiredRecords noFailures uid email s today).1,
       { deleted := [], errors := [] }) := by
  have hclean : ∀ x ∈ ((autoDeleteExpiredRecords noFailures uid email s today).1).rtw_records,
      isDue today x = false := by
    intro x hx
    cases hd : isDue today x with
    | false => rfl
    | true =>
      exfalso
      simp only [autoDeleteExpiredRecords, noFailures] at hx
      by_cases hemp : (pendingDeletionCandidates s today).isEmpty
      · rw [if_pos hemp] at hx
        have hnil : pendingDeletionCandidates s today = [] := by
          simpa [List.isEmpty_iff] using hemp
        have hmem : x ∈ pendingDeletionCandidates s today := by
          simp only [pendingDeletionCandidates, List.mem_filter]
          exact ⟨hx, hd⟩
        rw [hnil] at hmem
        exact absurd hmem (List.not_mem_nil x)
      · rw [if_neg hemp] at hx
        obtain ⟨hmem, hids⟩ := foldl_noFail_records uid email _ _ _ x hx
        have hcand : x ∈ pendingDeletionCandidates s today := by
          simp only [pendingDeletionCandidates, List.mem_filter]
          exact ⟨hmem, hd⟩
        exact hids x hcand rfl
  have hnil2 : pendingDeletionCandidates
      ((autoDeleteExpiredRecords noFailures uid email s today).1) today = [] := by
    simp only [pendingDeletionCandidates]
    rw [List.filter_eq_nil_iff]
    intro x hx
    simp [hclean x hx]
  conv_lhs => rw [autoDeleteExpiredRecords]
  rw [hnil2]
  rfl

/-- Claim C6: with three due candidates of which exactly the second fails its
scan-deletion sub-step, the client sweep still deletes the first and third,
reports exactly one `"{name}: {message}"` error for the second, and keeps the
second candidate's already-written ledger entry (no rollback). -/
theorem claim_C6_partial_failure (r1 r2 r3 : Record) (uid : Nat) (email m : String)
    (s : Store) (today : Date)
    (h12 : r1.id ≠ r2.id) (h13 : r1.id ≠ r3.id) (h23 : r2.id ≠ r3.id)
    (hd1 : isDue today r1 = true) (hd2 : isDue today r2 = true) (hd3 : isDue today r3 = true)
    (hs : s.rtw_records = [r1, r2, r3]) (hdel : s.deleted_records = []) :
    (autoDeleteExpiredRecords (failSecondScans r2.id m) uid email s today).2.deleted =
        [r1.person_name, r3.person_name] ∧
    (autoDeleteExpiredRecords (failSecondScans r2.id m) uid email s today).2.errors =
        [r2.person_name ++ ": " ++ m] ∧
    (autoDeleteExpiredRecords (failSecondScans r2.id m) uid email s today).1.deleted_records =
        [clientLedgerEntry r1 uid email, clientLedgerEntry r2 uid email,
         clientLedgerEntry r3 uid email] ∧
    (autoDeleteExpiredRecords (failSecondScans r2.id m) uid email s today).1.rtw_records =
        [r2] := by
  have h21 : r2.id ≠ r1.id := Ne.symm h12
  have h31 : r3.id ≠ r1.id := Ne.symm h13
  have h32 : r3.id ≠ r2.id := Ne.symm h23
  have hcands : pendingDeletionCandidates s today = [r1, r2, r3] := by
    simp [pendingDeletionCandidates, hs, hd1, hd2, hd3]
  refine ⟨?_, ?_, ?_, ?_⟩ <;>
    simp [autoDeleteExpiredRecords, failSecondScans, hcands, clientProcessOne,
      h12, h21, h13, h31, h23, h32, hs, hdel]

/-- Witness for claim C6 at the concrete three-record scenario. -/
theorem claim_C6_partial_failure_witness :
    (autoDeleteExpiredRecords (failSecondScans recC6b.id "bucket offline") 7 "manager@example.org"
        storeC6w ⟨2025, 6, 15⟩).2.deleted = [recC6a.person_name, recC6c.person_name] ∧
    (autoDeleteExpiredRecords (failSecondScans recC6b.id "bucket offline") 7 "manager@example.org"
        storeC6w ⟨2025, 6, 15⟩).2.errors = [recC6b.person_name ++ ": " ++ "bucket offline"] ∧
    (autoDeleteExpiredRecords (failSecondScans recC6b.id "bucket offline") 7 "manager@example.org"
        storeC6w ⟨2025, 6, 15⟩).1.deleted_records =
      [clientLedgerEntry recC6a 7 "manager@example.org",
       clientLedgerEntry recC6b 7 "manager@example.org",
       clientLedgerEntry recC6c 7 "manager@example.org"] ∧
    (autoDeleteExpiredRecords (failSecondScans recC6b.id "bucket offline") 7 "manager@example.org"
        storeC6w ⟨2025, 6, 15⟩).1.rtw_records = [recC6b] :=
  claim_C6_partial_failure recC6a recC6b recC6c 7 "manager@example.org" "bucket offline"
    storeC6w ⟨2025, 6, 15⟩ (by decide) (by decide) (by decide)
    (by decide) (by decide) (by decide) rfl rfl

/-- Witness for claim C2 at the concrete scenario store. -/
theorem claim_C2_sweep_scenario_witness :
    calculateStatus recC2w ⟨2025, 6, 15⟩ = Status.pending_deletion ∧
    (runSqlSweep storeC2w ⟨2025, 6, 15⟩).rtw_records = [] ∧
    (runSqlSweep storeC2w ⟨2025, 6, 15⟩).scans =
      storeC2w.scans.filter (fun o => o.record_id ≠ recC2w.id) ∧
    (runSqlSweep storeC2w ⟨2025, 6, 15⟩).deleted_records = [sqlLedgerEntry recC2w] ∧
    (sqlLedgerEntry recC2w).reason = "GDPR retention period expired (auto)" ∧
    sqlSweepTrace storeC2w ⟨2025, 6, 15⟩ =
      [SweepEv.insertLedger (sqlLedgerEntry recC2w), SweepEv.deleteScans recC2w.id,
       SweepEv.deleteRecordRow recC2w.id, SweepEv.scrubAudit recC2w.id] :=
  claim_C2_sweep_scenario recC2w ⟨2025, 6, 15⟩ ⟨2025, 6, 10⟩ storeC2w
    rfl (by decide) rfl rfl rfl

/-- One scrub `UPDATE` never changes which record an audit row references. -/
theorem scrubKeyEntry_record_id (target : Nat) (k : String) (e : AuditEntry) :
    (scrubKeyEntry target k e).record_id = e.record_id := by
  unfold scrubKeyEntry
  split <;> rfl

/-- One scrub `UPDATE` only removes keys from the before snapshot. -/
theorem scrubKeyEntry_old_sub (target : Nat) (k : String) (e : AuditEntry) :
    ∀ x ∈ (scrubKeyEntry target k e).old_values, x ∈ e.old_values := by
  unfold scrubKeyEntry
  split
  · intro x hx
    exact List.mem_of_mem_filter hx
  · intro x hx
    exact hx

/-- One scrub `UPDATE` only removes keys from the after snapshot. -/
theorem scrubKeyEntry_new_sub (target : Nat) (k : String) (e : AuditEntry) :
    ∀ x ∈ (scrubKeyEntry target k e).new_values, x ∈ e.new_values := by
  unfold scrubKeyEntry
  split
  · intro x hx
    exact List.mem_of_mem_filter hx
  · intro x hx
    exact hx

/-- After the `UPDATE` for key `k`, a targeted row no longer carries `k`. -/
theorem scrubKeyEntry_removes (target : Nat) (k : String) (e : AuditEntry)
    (h : e.record_id = target) :
    k ∉ (scrubKeyEntry target k e).old_values ∧ k ∉ (scrubKeyEntry target k e).new_values := by
  unfold scrubKeyEntry
  split
  · simp [List.mem_filter]
  · rename_i hc
    rw [not_and, not_or] at hc
    exact hc h

/-- Folding scrub updates over any key list keeps the referenced record. -/
theorem entryFold_record_id (target : Nat) :
    ∀ (ks : List String) (e : AuditEntry),
      (ks.foldl (fun x k => scrubKeyEntry target k x) e).record_id = e.record_id := by
  intro ks
  induction ks with
  | nil => intro e; rfl
  | cons k ks ih =>
      intro e
      rw [List.foldl_cons, ih, scrubKeyEntry_record_id]

/-- Folding scrub updates over any key list only removes before-snapshot keys. -/
theorem entryFold_old_sub (target : Nat) :
    ∀ (ks : List String) (e : AuditEntry) (x : String),
      x ∈ (ks.foldl (fun y k => scrubKeyEntry target k y) e).old_values →
      x ∈ e.old_values := by
  intro ks
  induction ks with
  | nil => intro e x hx; exact hx
  | cons k ks ih =>
      intro e x hx
      rw [List.foldl_cons] at hx
      exact scrubKeyEntry_old_sub target k e x (ih _ x hx)

/-- Folding scrub updates over any key list only removes after-snapshot keys. -/
theorem entryFold_new_sub (target : Nat) :
    ∀ (ks : List String) (e : AuditEntry) (x : String),
      x ∈ (ks.foldl (fun y k => scrubKeyEntry target k y) e).new_values →
      x ∈ e.new_values := by
  intro ks
  induction ks with
  | nil => intro e x hx; exact hx
  | cons k ks ih =>
      intro e x hx
      rw [List.foldl_cons] at hx
      exact scrubKeyEntry_new_sub target k e x (ih _ x hx)

/-- Folding scrub updates over a key list removes every key of the list from
a targeted row. -/
theorem entryFold_removes (target : Nat) :
    ∀ (ks : List String) (e : AuditEntry), e.record_id = target →
      ∀ k ∈ ks,
        k ∉ (ks.foldl (fun y j => scrubKeyEntry target j y) e).old_values ∧
        k ∉ (ks.foldl (fun y j => scrubKeyEntry target j y) e).new_values := by
  intro ks
  induction ks with
  | nil => intro e _ k hk; exact absurd hk (List.not_mem_nil k)
  | cons j ks ih =>
      intro e he k hk
      rw [List.foldl_cons]
      rcases List.mem_cons.mp hk with hkj | hkm
      · subst hkj
        have hrem := scrubKeyEntry_removes target k e he
        constructor
        · intro hc
          exact hrem.1 (entryFold_old_sub target ks _ k hc)
        · intro hc
          exact hrem.2 (entryFold_new_sub target ks _ k hc)
      · exact ih (scrubKeyEntry target j e)
          (by rw [scrubKeyEntry_record_id]; exact he) k hkm

/-- A fold of per-key whole-table updates is the per-row fold of per-key
updates. -/
theorem foldl_map_comm (target : Nat) :
    ∀ (ks : List String) (lg : List AuditEntry),
      ks.foldl (fun acc k => acc.map (scrubKeyEntry target k)) lg =
        lg.map (fun e => ks.foldl (fun x k => scrubKeyEntry target k x) e) := by
  intro ks
  induction ks with
  | nil => intro lg; simp
  | cons k ks ih =>
      intro lg
      rw [List.foldl_cons, ih, List.map_map]
      rfl

/-- The scrubber acts row-by-row. -/
theorem scrub_eq_map (target : Nat) (lg : List AuditEntry) :
    scrub_audit_personal_data target lg = lg.map (scrubEntry target) :=
  foldl_map_comm target sensitiveKeys lg

/-- The per-candidate SQL block, written out field by field. -/
theorem applyBlock_fields (st : Store) (r : Record) :
    applyBlock st r =
      { rtw_records := st.rtw_records.filter (fun x => x.id ≠ r.id)
        deleted_records := st.deleted_records ++ [sqlLedgerEntry r]
        scans := st.scans.filter (fun o => o.record_id ≠ r.id)
        audit_log := scrub_audit_personal_data r.id
          (st.audit_log ++ (st.rtw_records.filter (fun x => x.id = r.id)).map deleteAuditEntry)
        notifications := st.notifications } :=
  rfl

/-- Processing a candidate establishes the clean invariant for its id. -/
theorem applyBlock_establishes (st : Store) (r : Record) :
    auditCleanFor r.id (applyBlock st r) := by
  constructor
  · intro e he hid k hk
    rw [applyBlock_fields] at he
    rw [scrub_eq_map] at he
    obtain ⟨e0, _, rfl⟩ := List.mem_map.mp he
    have hid0 : e0.record_id = r.id := by
      rw [← entryFold_record_id r.id sensitiveKeys e0]
      exact hid
    exact entryFold_removes r.id sensitiveKeys e0 hid0 k hk
  · intro x hx
    rw [applyBlock_fields] at hx
    rw [List.mem_filter] at hx
    simpa using hx.2

/-- Processing any later candidate preserves the clean invariant. -/
theorem applyBlock_preserves (rid : Nat) (st : Store) (r2 : Record)
    (h : auditCleanFor rid st) : auditCleanFor rid (applyBlock st r2) := by
  obtain ⟨h1, h2⟩ := h
  constructor
  · intro e he hid k hk
    rw [applyBlock_fields] at he
    rw [scrub_eq_map] at he
    obtain ⟨e0, he0, rfl⟩ := List.mem_map.mp he
    have hid0 : e0.record_id = rid := by
      rw [← entryFold_record_id r2.id sensitiveKeys e0]
      exact hid
    rcases List.mem_append.mp he0 with hold | hnew
    · have hcl := h1 e0 hold hid0 k hk
      constructor
      · intro hc
        exact hcl.1 (entryFold_old_sub r2.id sensitiveKeys e0 k hc)
      · intro hc
        exact hcl.2 (entryFold_new_sub r2.id sensitiveKeys e0 k hc)
    · obtain ⟨x, hxmem, rfl⟩ := List.mem_map.mp hnew
      rw [List.mem_filter] at hxmem
      have hxid : x.id = rid := hid0
      exact absurd hxid (h2 x hxmem.1)
  · intro x hx
    rw [applyBlock_fields] at hx
    rw [List.mem_filter] at hx
    exact h2 x hx.1

/-- The clean invariant survives the rest of the sweep loop. -/
theorem foldl_block_preserves (rid : Nat) :
    ∀ (l : List Record) (st : Store),
      auditCleanFor rid st → auditCleanFor rid (l.foldl applyBlock st) := by
  intro l
  induction l with
  | nil => intro st h; exact h
  | cons c l ih =>
      intro st h
      rw [List.foldl_cons]
      exact ih _ (applyBlock_preserves rid st c h)

/-- Every candidate processed by the sweep loop ends clean. -/
theorem foldl_block_clean :
    ∀ (l : List Record) (st : Store) (r : Record), r ∈ l →
      auditCleanFor r.id (l.foldl applyBlock st) := by
  intro l
  induction l with
  | nil => intro st r hr; exact absurd hr (List.not_mem_nil r)
  | cons c l ih =>
      intro st r hr
      rw [List.foldl_cons]
      rcases List.mem_cons.mp hr with hrc | hrm
      · subst hrc
        exact foldl_block_preserves r.id l _ (applyBlock_establishes st r)
      · exact ih _ r hrm

/-- Membership in the accumulated sweep trace. -/
theorem mem_trace_foldl :
    ∀ (l : List Record) (acc : List SweepEv) (ev : SweepEv),
      (ev ∈ acc ∨ ∃ r ∈ l, ev ∈ sqlDeleteTrace r) →
      ev ∈ l.foldl (fun a x => a ++ sqlDeleteTrace x) acc := by
  intro l
  induction l with
  | nil =>
      intro acc ev h
      rcases h with h | ⟨r, hr, _⟩
      · exact h
      · exact absurd hr (List.not_mem_nil r)
  | cons c l ih =>
      intro acc ev h
      rw [List.foldl_cons]
      apply ih
      rcases h with h | ⟨r, hr, hev⟩
      · exact Or.inl (List.mem_append.mpr (Or.inl h))
      · rcases List.mem_cons.mp hr with hrc | hrm
        · subst hrc
          exact Or.inl (List.mem_append.mpr (Or.inr hev))
        · exact Or.inr ⟨r, hrm, hev⟩

/-- Claim C3 fails as stated for the client-side sweep: after
`autoDeleteExpiredRecords` successfully processes its one due candidate
(record 21 is deleted), an `audit_log` entry for that record still carries
the sensitive key `person_name` — the client sweep never invokes the Audit
Scrubber. -/
theorem claim_C3_counterexample :
    ((autoDeleteExpiredRecords noFailures 7 "manager@example.org" storeC3w ⟨2025, 6, 15⟩).1.rtw_records
        = [] ∧
     (autoDeleteExpiredRecords noFailures 7 "manager@example.org" storeC3w ⟨2025, 6, 15⟩).2.deleted
        = ["Dana"] ∧
     (autoDeleteExpiredRecords noFailures 7 "manager@example.org" storeC3w ⟨2025, 6, 15⟩).1.audit_log.any
        (fun e => e.record_id == recC3w.id && e.old_values.contains "person_name") = true) := by
  decide

/-- Claim C3 as amended: the scheduled SQL sweep
(`auto_delete_expired_records`) does invoke the Audit Scrubber as a
per-candidate step — its trace contains the scrub operation for every
candidate id — and afterwards no audit entry for a candidate carries any
sensitive personal-data key. -/
theorem claim_C3_sql_sweep_scrubs (s : Store) (today : Date) (r : Record)
    (e : AuditEntry) (k : String)
    (hr : r ∈ pendingDeletionCandidates s today)
    (he : e ∈ (runSqlSweep s today).audit_log)
    (hid : e.record_id = r.id) (hk : k ∈ sensitiveKeys) :
    SweepEv.scrubAudit r.id ∈ sqlSweepTrace s today ∧
    k ∉ e.old_values ∧ k ∉ e.new_values := by
  constructor
  · unfold sqlSweepTrace
    apply mem_trace_foldl
    refine Or.inr ⟨r, hr, ?_⟩
    simp [sqlDeleteTrace]
  · exact (foldl_block_clean _ s r hr).1 e he hid k hk

/-- Witness for the amended claim C3 at the concrete scrub store. -/
theorem claim_C3_sql_sweep_scrubs_witness :
    SweepEv.scrubAudit recC3w.id ∈ sqlSweepTrace storeC3w ⟨2025, 6, 15⟩ ∧
    "person_name" ∉ (({ record_id := 21, old_values := ["check_type"], new_values := [] } : AuditEntry)).old_values ∧
    "person_name" ∉ (({ record_id := 21, old_values := ["check_type"], new_values := [] } : AuditEntry)).new_values :=
  claim_C3_sql_sweep_scrubs storeC3w ⟨2025, 6, 15⟩ recC3w
    { record_id := 21, old_values := ["check_type"], new_values := [] } "person_name"
    (by decide) (by decide) (by decide) (by decide)

/-- A list is a prefix of itself followed by anything. -/
theorem isPrefixOf_append_self : ∀ (l t : List Char), List.isPrefixOf l (l ++ t) = true := by
  intro l t
  induction l with
  | nil => simp [List.isPrefixOf]
  | cons a l ih => simp [List.isPrefixOf, ih]

/-- `LIKE 'p%'` holds of any string whose characters extend `p`. -/
theorem likeMatch_of_data (p s : String) (rest : List Char)
    (h : s.data = p.data ++ rest) : likeMatch p s = true := by
  unfold likeMatch
  rw [h]
  exact isPrefixOf_append_self p.data rest

/-- The category-1 notification passes its own duplicate check. -/
theorem mkPendingDeletionNotif_matches (rec : Record) :
    notifMatches rec.id "Pending Deletion" (mkPendingDeletionNotif rec) = true := by
  have hlike : likeMatch "Pending Deletion" ("Pending Deletion: " ++ rec.person_name) = true := by
    apply likeMatch_of_data _ _ (": ".data ++ rec.person_name.data)
    rw [String.data_append, ← List.append_assoc]
    rw [show ("Pending Deletion: ").data = "Pending Deletion".data ++ ": ".data from by decide]
  simp [notifMatches, mkPendingDeletionNotif, hlike]

/-- The category-2 notification passes its own duplicate check. -/
theorem mkExpiredNotif_matches (rec : Record) :
    notifMatches rec.id "Expired" (mkExpiredNotif rec) = true := by
  have hlike : likeMatch "Expired" ("Expired: " ++ rec.person_name) = true := by
    apply likeMatch_of_data _ _ (": ".data ++ rec.person_name.data)
    rw [String.data_append, ← List.append_assoc]
    rw [show ("Expired: ").data = "Expired".data ++ ": ".data from by decide]
  simp [notifMatches, mkExpiredNotif, hlike]

/-- The category-3 notification passes its own duplicate check. -/
theorem mkOverdueNotif_matches (rec : Record) :
    notifMatches rec.id "Overdue" (mkOverdueNotif rec) = true := by
  have hlike : likeMatch "Overdue" ("Overdue: " ++ rec.person_name) = true := by
    apply likeMatch_of_data _ _ (": ".data ++ rec.person_name.data)
    rw [String.data_append, ← List.append_assoc]
    rw [show ("Overdue: ").data = "Overdue".data ++ ": ".data from by decide]
  simp [notifMatches, mkOverdueNotif, hlike]

/-- The category-4 notification passes its own duplicate check. -/
theorem mkFollowUpDueNotif_matches (rec : Record) :
    notifMatches rec.id "Follow-up Due" (mkFollowUpDueNotif rec) = true := by
  have hlike : likeMatch "Follow-up Due" ("Follow-up Due: " ++ rec.person_name) = true := by
    apply likeMatch_of_data _ _ (": ".data ++ rec.person_name.data)
    rw [String.data_append, ← List.append_assoc]
    rw [show ("Follow-up Due: ").data = "Follow-up Due".data ++ ": ".data from by decide]
  simp [notifMatches, mkFollowUpDueNotif, hlike]

/-- The category-5 notification passes its own duplicate check. -/
theorem mkExpiringSoonNotif_matches (rec : Record) :
    notifMatches rec.id "Expiring Soon" (mkExpiringSoonNotif rec) = true := by
  have hlike : likeMatch "Expiring Soon" ("Expiring Soon: " ++ rec.person_name) = true := by
    apply likeMatch_of_data _ _ (": ".data ++ rec.person_name.data)
    rw [String.data_append, ← List.append_assoc]
    rw [show ("Expiring Soon: ").data = "Expiring Soon".data ++ ": ".data from by decide]
  simp [notifMatches, mkExpiringSoonNotif, hlike]

/-- An existing undismissed match survives the arrival of new notifications. -/
theorem hasUndismissed_append (ns ex : List Notif) (rid : Nat) (p : String)
    (h : hasUndismissed ns rid p = true) : hasUndismissed (ns ++ ex) rid p = true := by
  unfold hasUndismissed at h ⊢
  rw [List.any_append, h]
  rfl

/-- A category loop never touches the record table. -/
theorem foldl_insert_rtw (pfx : String) (mk : Record → Notif) :
    ∀ (l : List Record) (st : Store),
      ((l.foldl (insertIfMissing pfx mk) st).rtw_records = st.rtw_records) := by
  intro l
  induction l with
  | nil => intro st; rfl
  | cons c l ih =>
      intro st
      rw [List.foldl_cons, ih]
      unfold insertIfMissing
      split <;> rfl

/-- A category loop only appends notifications. -/
theorem foldl_insert_append (pfx : String) (mk : Record → Notif) :
    ∀ (l : List Record) (st : Store),
      ∃ ex, (l.foldl (insertIfMissing pfx mk) st).notifications = st.notifications ++ ex := by
  intro l
  induction l with
  | nil => intro st; exact ⟨[], by simp⟩
  | cons c l ih =>
      intro st
      rw [List.foldl_cons]
      obtain ⟨ex, hex⟩ := ih (insertIfMissing pfx mk st c)
      have hstep : ∃ e0, (insertIfMissing pfx mk st c).notifications = st.notifications ++ e0 := by
        unfold insertIfMissing
        split
        · exact ⟨[], by simp⟩
        · exact ⟨[mk c], rfl⟩
      obtain ⟨e0, he0⟩ := hstep
      exact ⟨e0 ++ ex, by rw [hex, he0, List.append_assoc]⟩

/-- After a category loop, every processed record has an undismissed
notification under the category's title pattern. -/
theorem foldl_insert_establishes (pfx : String) (mk : Record → Notif)
    (hmk : ∀ rec : Record, notifMatches rec.id pfx (mk rec) = true) :
    ∀ (l : List Record) (st : Store) (rec : Record), rec ∈ l →
      hasUndismissed ((l.foldl (insertIfMissing pfx mk) st).notifications) rec.id pfx = true := by
  intro l
  induction l with
  | nil => intro st rec hrec; exact absurd hrec (List.not_mem_nil rec)
  | cons c l ih =>
      intro st rec hrec
      rw [List.foldl_cons]
      rcases List.mem_cons.mp hrec with hrc | hrm
      · subst hrc
        have hstep : hasUndismissed ((insertIfMissing pfx mk st rec).notifications) rec.id pfx = true := by
          unfold insertIfMissing
          split
          · rename_i hyes
            exact hyes
          · unfold hasUndismissed
            rw [List.any_append]
            simp [hmk rec]
        obtain ⟨ex, hex⟩ := foldl_insert_append pfx mk l (insertIfMissing pfx mk st rec)
        rw [hex]
        exact hasUndismissed_append _ ex rec.id pfx hstep
      · exact ih _ rec hrm

/-- A category loop whose every candidate already has an undismissed
notification is a no-op. -/
theorem foldl_insert_skip (pfx : String) (mk : Record → Notif) :
    ∀ (l : List Record) (st : Store),
      (∀ rec ∈ l, hasUndismissed st.notifications rec.id pfx = true) →
      l.foldl (insertIfMissing pfx mk) st = st := by
  intro l
  induction l with
  | nil => intro st _; rfl
  | cons c l ih =>
      intro st h
      rw [List.foldl_cons]
      have hstep : insertIfMissing pfx mk st c = st := by
        unfold insertIfMissing
        rw [if_pos (h c (List.mem_cons_self c l))]
      rw [hstep]
      exact ih st (fun rec hrec => h rec (List.mem_cons_of_mem c hrec))

/-- `catLoop` never touches the record table. -/
theorem catLoop_rtw_records (cond : Date → Record → Bool) (pfx : String)
    (mk : Record → Notif) (today : Date) (s : Store) :
    (catLoop cond pfx mk today s).rtw_records = s.rtw_records :=
  foldl_insert_rtw pfx mk _ s

/-- `catLoop` preserves any existing undismissed match. -/
theorem catLoop_mono (cond : Date → Record → Bool) (pfx : String)
    (mk : Record → Notif) (today : Date) (s : Store) (rid : Nat) (p2 : String)
    (h : hasUndismissed s.notifications rid p2 = true) :
    hasUndismissed (catLoop cond pfx mk today s).notifications rid p2 = true := by
  obtain ⟨ex, hex⟩ := foldl_insert_append pfx mk (s.rtw_records.filter (cond today)) s
  unfold catLoop
  rw [hex]
  exact hasUndismissed_append _ ex rid p2 h

/-- After `catLoop`, every record matching the category condition has an
undismissed notification under the category's title pattern. -/
theorem catLoop_establishes (cond : Date → Record → Bool) (pfx : String)
    (mk : Record → Notif) (today : Date) (s : Store)
    (hmk : ∀ rec : Record, notifMatches rec.id pfx (mk rec) = true)
    (rec : Record) (hrec : rec ∈ s.rtw_records) (hcond : cond today rec = true) :
    hasUndismissed (catLoop cond pfx mk today s).notifications rec.id pfx = true := by
  apply foldl_insert_establishes pfx mk hmk
  rw [List.mem_filter]
  exact ⟨hrec, hcond⟩

/-- A `catLoop` whose candidates are all already covered is a no-op. -/
theorem catLoop_noop_of (cond : Date → Record → Bool) (pfx : String)
    (mk : Record → Notif) (today : Date) (s : Store)
    (h : ∀ rec ∈ s.rtw_records, cond today rec = true →
      hasUndismissed s.notifications rec.id pfx = true) :
    catLoop cond pfx mk today s = s := by
  apply foldl_insert_skip
  intro rec hrec
  rw [List.mem_filter] at hrec
  exact h rec hrec.1 hrec.2

/-- The generator never touches the record table. -/
theorem gen_rtw_records (s : Store) (today : Date) :
    (generate_rtw_notifications s today).rtw_records = s.rtw_records := by
  unfold generate_rtw_notifications
  rw [catLoop_rtw_records, catLoop_rtw_records, catLoop_rtw_records,
    catLoop_rtw_records, catLoop_rtw_records]

/-- After one generator run every category condition is covered. -/
theorem gen_satisfies (s : Store) (today : Date) :
    categoriesSatisfied (generate_rtw_notifications s today) today := by
  have hr := gen_rtw_records s today
  refine ⟨?_, ?_, ?_, ?_, ?_⟩
  · intro rec hrec hcond
    rw [hr] at hrec
    apply catLoop_mono
    apply catLoop_mono
    apply catLoop_mono
    apply catLoop_mono
    exact catLoop_establishes _ _ _ today s mkPendingDeletionNotif_matches rec hrec hcond
  · intro rec hrec hcond
    rw [hr] at hrec
    apply catLoop_mono
    apply catLoop_mono
    apply catLoop_mono
    apply catLoop_establishes _ _ _ today _ mkExpiredNotif_matches rec ?_ hcond
    rw [catLoop_rtw_records]
    exact hrec
  · intro rec hrec hcond
    rw [hr] at hrec
    apply catLoop_mono
    apply catLoop_mono
    apply catLoop_establishes _ _ _ today _ mkOverdueNotif_matches rec ?_ hcond
    rw [catLoop_rtw_records, catLoop_rtw_records]
    exact hrec
  · intro rec hrec hcond
    rw [hr] at hrec
    apply catLoop_mono
    apply catLoop_establishes _ _ _ today _ mkFollowUpDueNotif_matches rec ?_ hcond
    rw [catLoop_rtw_records, catLoop_rtw_records, catLoop_rtw_records]
    exact hrec
  · intro rec hrec hcond
    rw [hr] at hrec
    apply catLoop_establishes _ _ _ today _ mkExpiringSoonNotif_matches rec ?_ hcond
    rw [catLoop_rtw_records, catLoop_rtw_records, catLoop_rtw_records, catLoop_rtw_records]
    exact hrec

/-- A generator run over a store whose categories are all covered changes
nothing. -/
theorem gen_fix (s : Store) (today : Date) (h : categoriesSatisfied s today) :
    generate_rtw_notifications s today = s := by
  obtain ⟨h1, h2, h3, h4, h5⟩ := h
  show catLoop catExpiringSoonB "Expiring Soon" mkExpiringSoonNotif today
      (catLoop catFollowUpDueB "Follow-up Due" mkFollowUpDueNotif today
        (catLoop catOverdueB "Overdue" mkOverdueNotif today
          (catLoop catExpiredB "Expired" mkExpiredNotif today
            (catLoop catPendingDeletionB "Pending Deletion" mkPendingDeletionNotif today s)))) = s
  rw [catLoop_noop_of _ _ _ _ _ h1, catLoop_noop_of _ _ _ _ _ h2,
    catLoop_noop_of _ _ _ _ _ h3, catLoop_noop_of _ _ _ _ _ h4,
    catLoop_noop_of _ _ _ _ _ h5]

/-- Claim C8: running the notification generator a second time over an
unchanged record set inserts nothing — each category loop only inserts when
no undismissed notification with its title pattern exists for the record, so
the second run is the identity and undismissed counts cannot grow for any
(record, category) pair. -/
theorem claim_C8_notifications_idempotent (s : Store) (today : Date) :
    generate_rtw_notifications (generate_rtw_notifications s today) today =
      generate_rtw_notifications s today :=
  gen_fix _ today (gen_satisfies s today)

/-- Claim C9: notification categories 2–5 are pairwise mutually exclusive,
and category 5 (Expiring soon) fires only when the expiry date lies in
`[today, today+28d]`, no follow-up date lies in that same window, and the
record is not pending-deletion. -/
theorem claim_C9_category_exclusivity (r : Record) (today : Date) :
    (catExpiredB today r && catOverdueB today r) = false ∧
    (catExpiredB today r && catFollowUpDueB today r) = false ∧
    (catExpiredB today r && catExpiringSoonB today r) = false ∧
    (catOverdueB today r && catFollowUpDueB today r) = false ∧
    (catOverdueB today r && catExpiringSoonB today r) = false ∧
    (catFollowUpDueB today r && catExpiringSoonB today r) = false ∧
    (catExpiringSoonB today r && !(specExpiringSoonB today r)) = false := by
  rcases he : r.expiry_date with _ | e <;> rcases hf : r.follow_up_date with _ | f <;>
    rcases hd : r.deletion_due_date with _ | dd <;>
    simp [catExpiredB, catOverdueB, catFollowUpDueB, catExpiringSoonB, specExpiringSoonB,
      beforeB, inWindowB, afterWindowB, expiryNotPassedB, notPendingB, onOrBeforeB, warningN,
      he, hf, hd] <;> omega

/-- The SQL sweep appends exactly one ledger row per candidate. -/
theorem foldl_block_deleted :
    ∀ (l : List Record) (st : Store),
      (l.foldl applyBlock st).deleted_records =
        st.deleted_records ++ l.map sqlLedgerEntry := by
  intro l
  induction l with
  | nil => intro st; simp
  | cons c l ih =>
      intro st
      rw [List.foldl_cons, ih, applyBlock_fields]
      simp

/-- The client sweep appends exactly one ledger row per candidate when every
step succeeds. -/
theorem client_foldl_deleted (uid : Nat) (email : String) :
    ∀ (l : List Record) (s : Store) (res : SweepResult),
      ((l.foldl (clientProcessOne noFailures uid email) (s, res)).1).deleted_records =
        s.deleted_records ++ l.map (fun r => clientLedgerEntry r uid email) := by
  intro l
  induction l with
  | nil => intro s res; simp
  | cons c l ih =>
      intro s res
      rw [List.foldl_cons, clientProcessOne_noFail, ih]
      simp

/-- Claim C10: both ledger-row builders populate `employment_start_date` from
the record's `check_date` (null when the check date is absent), and the SQL
sweep writes exactly the so-built rows, one per candidate. -/
theorem claim_C10_ledger_start_date (r : Record) (uid : Nat) (email : String)
    (s : Store) (today : Date) :
    (sqlLedgerEntry r).employment_start_date = r.check_date ∧
    (clientLedgerEntry r uid email).employment_start_date = r.check_date ∧
    (runSqlSweep s today).deleted_records =
      s.deleted_records ++ (pendingDeletionCandidates s today).map sqlLedgerEntry := by
  refine ⟨rfl, rfl, ?_⟩
  exact foldl_block_deleted _ s

end RTW
